import Mathlib

/-!
Verification of the Message Tracking View (`src/components/cross-chain/tracked-messages.tsx`).

The component is shallowly embedded: each helper in the source becomes a Lean
function over explicit inputs.  External collaborators (the message-type
resolver `getMessageTypeName`, the browser key/value store `localStorage`, the
JSON parser) are passed in as function parameters; fallible ones return
`Except Unit _` so that a thrown exception is an `Except.error` value and a
`try/catch` in the source becomes a `match` on that value.  JavaScript
truthiness on optional strings (absent, `""` both falsy) is made explicit.
-/

/-- Structured cached metadata for a message, as read from the local
key/value store under key `message_{messageId}`: it optionally carries a
`messageType` string. -/
structure Metadata where
  messageType : Option String
deriving DecidableEq

/-- The optional `data` payload of a tracked message; it may carry a
`messageType` discriminator. -/
structure MessageData where
  messageType : Option String
deriving DecidableEq

/-- A tracked cross-chain message record as consumed by the view. -/
structure TrackedMessage where
  messageId : String
  status : String
  data : Option MessageData
  timestamp : Option Nat
deriving DecidableEq

/-- JavaScript truthiness of an optional string: `undefined`/absent and the
empty string are falsy, every other string is truthy. -/
def jsTruthyStr : Option String → Bool
  | none => false
  | some s => if s = "" then false else true

/-- The optional chain `message.data?.messageType` from the source. -/
def dataMessageType (d : Option MessageData) : Option String :=
  d.bind (fun md => md.messageType)

/-- The literal default label used by the view. -/
def defaultLabel : String := "Cross-Chain Query"

/-- The `localStorage` fallback branch of the label computation
(source lines 150-164): read `message_{messageId}` from the store (browser
only), skip a falsy result, then parse it inside the inner `try`; a parse
failure is caught and logged, leaving the label at its default; a parsed
`messageType` is used verbatim when truthy. -/
def cacheLabelStep (hasWindow : Bool) (localGet : String → Option String)
    (parseJSON : String → Except Unit Metadata) (messageId : String) : String :=
  if hasWindow then
    match localGet ("message_" ++ messageId) with
    | some metadataStr =>
      if metadataStr = "" then defaultLabel
      else
        match parseJSON metadataStr with
        | Except.ok metadata =>
          match metadata.messageType with
          | some s => if s = "" then defaultLabel else s
          | none => defaultLabel
        | Except.error _ => defaultLabel
    | none => defaultLabel
  else defaultLabel

/-- The body of the outer `try` of the label computation (source lines
145-164): when `message.data?.messageType` is truthy the label is
`getMessageTypeName` of it (which may throw, hence `Except`); otherwise the
`localStorage` fallback runs. -/
def resolveLabelBody (getMessageTypeName : String → Except Unit String)
    (hasWindow : Bool) (localGet : String → Option String)
    (parseJSON : String → Except Unit Metadata)
    (messageId : String) (d : Option MessageData) : Except Unit String :=
  match dataMessageType d with
  | some mt =>
    if mt = "" then pure (cacheLabelStep hasWindow localGet parseJSON messageId)
    else getMessageTypeName mt
  | none => pure (cacheLabelStep hasWindow localGet parseJSON messageId)

/-- The per-row label computation (source lines 141-171): the outer `catch`
turns any exception raised in the body into the default label. -/
def resolveLabel (getMessageTypeName : String → Except Unit String)
    (hasWindow : Bool) (localGet : String → Option String)
    (parseJSON : String → Except Unit Metadata)
    (messageId : String) (d : Option MessageData) : String :=
  match resolveLabelBody getMessageTypeName hasWindow localGet parseJSON messageId d with
  | Except.ok s => s
  | Except.error _ => defaultLabel

/-- Step 2 of the spec-side priority list (spec section 4.3, amended): the
cached metadata yields a label exactly when it exists, parses, and contains a
truthy (non-empty) `messageType` string. -/
def specCachedLabel (cacheStr : Option String)
    (parseJSON : String → Except Unit Metadata) : Option String :=
  match cacheStr with
  | some cs =>
    match parseJSON cs with
    | Except.ok md =>
      match md.messageType with
      | some s => if s = "" then none else some s
      | none => none
    | Except.error _ => none
  | none => none

/-- Spec-side label resolution, following the priority list of spec section
4.3 as amended: step 1 applies when `data.messageType` is present and truthy
(non-empty), resolving it through the name lookup (a lookup failure degrades
to the default); step 2 applies when the cached metadata parses to a truthy
`messageType`; step 3 is the literal default. -/
def specLabel (getMessageTypeName : String → Except Unit String)
    (cacheStr : Option String) (parseJSON : String → Except Unit Metadata)
    (dataMT : Option String) : String :=
  if jsTruthyStr dataMT then
    match dataMT with
    | some mt =>
      match getMessageTypeName mt with
      | Except.ok s => s
      | Except.error _ => defaultLabel
    | none => defaultLabel
  else
    match specCachedLabel cacheStr parseJSON with
    | some s => s
    | none => defaultLabel

/-- Whether the inner `JSON.parse` of the cached metadata throws during the
`localStorage` fallback branch. -/
def cacheParseThrows (hasWindow : Bool) (localGet : String → Option String)
    (parseJSON : String → Except Unit Metadata) (messageId : String) : Bool :=
  if hasWindow then
    match localGet ("message_" ++ messageId) with
    | some s =>
      if s = "" then false
      else
        match parseJSON s with
        | Except.ok _ => false
        | Except.error _ => true
    | none => false
  else false

/-- Whether an exception is raised somewhere inside the label computation:
either the name lookup throws on a truthy `data.messageType`, or the cached
metadata string is read and its parse throws. -/
def labelResolutionThrows (getMessageTypeName : String → Except Unit String)
    (hasWindow : Bool) (localGet : String → Option String)
    (parseJSON : String → Except Unit Metadata)
    (messageId : String) (d : Option MessageData) : Bool :=
  match dataMessageType d with
  | some mt =>
    if mt = "" then cacheParseThrows hasWindow localGet parseJSON messageId
    else
      match getMessageTypeName mt with
      | Except.ok _ => false
      | Except.error _ => true
  | none => cacheParseThrows hasWindow localGet parseJSON messageId

/-! ## Expansion state (source lines 34, 103-108, 132, 188-194) -/

/-- The `Record<string, boolean>` expansion state, modelled as an association
list so that an absent key is representable (JavaScript `undefined`). -/
abbrev ExpandedState := List (String × Bool)

/-- `useState({})`: the expansion mapping starts empty (source line 34). -/
def initialExpanded : ExpandedState := []

/-- Property access `m[k]` on the record: the value at the first occurrence of
`k`, or `undefined` (here `none`) when absent. -/
def lookupFlag (m : ExpandedState) (k : String) : Option Bool :=
  match m with
  | [] => none
  | (k2, v) :: rest => if k2 = k then some v else lookupFlag rest k

/-- Truthiness of `m[k]`: `undefined` is falsy, a stored boolean is itself. -/
def jsFlag (m : ExpandedState) (k : String) : Bool :=
  match lookupFlag m k with
  | some b => b
  | none => false

/-- The spread-with-computed-key update `\x7b...prev, [k]: v\x7d`: the first
occurrence of `k` is overwritten in place, a fresh key is appended. -/
def setKey (m : ExpandedState) (k : String) (v : Bool) : ExpandedState :=
  match m with
  | [] => [(k, v)]
  | (k2, v2) :: rest => if k2 = k then (k, v) :: rest else (k2, v2) :: setKey rest k v

/-- `toggleExpanded` (source lines 103-108): store the negation of the current
truthy value of `prev[messageId]` under `messageId`. -/
def toggleExpanded (messageId : String) (prev : ExpandedState) : ExpandedState :=
  setKey prev messageId (!(jsFlag prev messageId))

/-- The dedicated toggle control calls `stopPropagation` before toggling
(source lines 188-191), so the row-level click handler does not also run. -/
def controlStopsPropagation : Bool := true

/-- Net effect on the expansion state of a click on the dedicated control:
the control handler toggles once; were propagation not stopped, the click
would bubble to the row container (source line 137) and toggle again. -/
def controlClick (messageId : String) (m : ExpandedState) : ExpandedState :=
  let afterControl := toggleExpanded messageId m
  if controlStopsPropagation then afterControl
  else toggleExpanded messageId afterControl

/-! ## Status icons and connection badge (source lines 86-100, 116-126) -/

/-- The five icon renderings produced by `getStatusIcon`. -/
inductive Icon
  | checkCircleGreen
  | xCircleRed
  | arrowRightLeftBlue
  | checkCirclePurple
  | clockYellow
deriving DecidableEq

/-- `getStatusIcon` (source lines 86-100): a `switch` on the status string;
`CREATED` and the default case share the yellow clock glyph. -/
def getStatusIcon (status : String) : Icon :=
  if status = "COMPLETED" then Icon.checkCircleGreen
  else if status = "FAILED" then Icon.xCircleRed
  else if status = "INFLIGHT" then Icon.arrowRightLeftBlue
  else if status = "DELIVERED" then Icon.checkCirclePurple
  else Icon.clockYellow

/-- The two connection affordances. -/
inductive Indicator
  | live
  | polling
deriving DecidableEq

/-- Modelled from the spec: the Notification Client connection-state
enumeration (`ConnectionState` of the websocket service, whose code is not
under src). Spec section 6 lists `Enum\x7bCONNECTING, OPEN, CLOSED, ...\x7d`. -/
inductive ConnectionState
  | CONNECTING
  | OPEN
  | CLOSED
deriving DecidableEq

/-- The connection indicator (source lines 116-126): the live badge exactly
when `connectionState === ConnectionState.OPEN`, else the polling badge. -/
def connectionBadge (cs : ConnectionState) : Indicator :=
  if cs = ConnectionState.OPEN then Indicator.live else Indicator.polling

/-! ## Row and view rendering (source lines 73-83, 110-208) -/

/-- The visible content of one rendered message row (source lines 134-204). -/
structure Row where
  key : String
  icon : Icon
  label : String
  shortId : String
  timestampShown : Option Nat
  chevronUp : Bool
  detail : Option String
deriving DecidableEq

/-- Render one message row (source lines 130-204): status icon, resolved
label, 8-character truncated id, optional truthy timestamp, chevron direction
from the expansion flag, and the detail sub-view (parameterized only by
`messageId`) mounted exactly when the row is expanded. -/
def renderRow (getMessageTypeName : String → Except Unit String)
    (hasWindow : Bool) (localGet : String → Option String)
    (parseJSON : String → Except Unit Metadata)
    (expanded : ExpandedState) (msg : TrackedMessage) : Row :=
  let messageId := msg.messageId
  let isExpanded := jsFlag expanded messageId
  { key := messageId
    icon := getStatusIcon msg.status
    label := resolveLabel getMessageTypeName hasWindow localGet parseJSON messageId msg.data
    shortId := messageId.take 8 ++ "..."
    timestampShown :=
      match msg.timestamp with
      | some t => if t = 0 then none else some t
      | none => none
    chevronUp := isExpanded
    detail := if isExpanded then some messageId else none }

/-- The two shapes the component can render. -/
inductive View
  | emptyState
  | messageList (badge : Indicator) (count : Nat) (rows : List Row)
deriving DecidableEq

/-- The `TrackedMessages` component render (source lines 31-208): with zero
message ids the empty-state affordance is returned (lines 73-83); otherwise
the header count, the connection badge, and one row per message in the
order of the `messages` collection. -/
def TrackedMessages (getMessageTypeName : String → Except Unit String)
    (hasWindow : Bool) (localGet : String → Option String)
    (parseJSON : String → Except Unit Metadata)
    (connectionState : ConnectionState) (expanded : ExpandedState)
    (messages : List TrackedMessage) : View :=
  let messageIds := messages.map (fun m => m.messageId)
  if messageIds.length = 0 then View.emptyState
  else
    View.messageList (connectionBadge connectionState) messageIds.length
      (messages.map (renderRow getMessageTypeName hasWindow localGet parseJSON expanded))

/-! ## Refresh poller (source lines 39-70) -/

/-- Modelled from the spec: `trackMessage` of the websocket service (not under
src) is an idempotent registration, spec sections 4.2 and 6; registering an
already-tracked id is a no-op. -/
def trackMessage (id : String) (tracked : List String) : List String :=
  if id ∈ tracked then tracked else tracked ++ [id]

/-- One entry of the `messages` array of the endpoint body. -/
structure ApiMsg where
  id : String
deriving DecidableEq

/-- The parsed JSON body of `/api/cross-chain/messages`: the `messages` field
may be absent. -/
structure ApiBody where
  messages : Option (List ApiMsg)
deriving DecidableEq

/-- The outcome of one `fetch` call: the promise rejects (network error), or
a response arrives with an `ok` flag and a body whose `json()` parse may
itself reject. -/
inductive FetchOutcome
  | netError
  | httpResponse (ok : Bool) (body : Except Unit ApiBody)

/-- The `data.messages && data.messages.length > 0` guard and the `forEach`
registration loop (source lines 50-52). -/
def applyTracking (data : ApiBody) (tracked : List String) : List String :=
  match data.messages with
  | some msgs =>
    if msgs.length > 0 then msgs.foldl (fun t m => trackMessage m.id t) tracked
    else tracked
  | none => tracked

/-- The `try` body of `fetchRealMessages` (source lines 42-53): a network
error or a body-parse rejection surfaces as `Except.error`; a non-OK response
is skipped silently inside the body with no error raised. -/
def fetchBody (outcome : FetchOutcome) (tracked : List String) :
    Except Unit (List String) :=
  match outcome with
  | FetchOutcome.netError => Except.error ()
  | FetchOutcome.httpResponse ok body =>
    if ok then
      match body with
      | Except.ok data => Except.ok (applyTracking data tracked)
      | Except.error _ => Except.error ()
    else Except.ok tracked

/-- `fetchRealMessages` (source lines 41-57): the surrounding `catch` logs and
swallows any raised error, leaving the tracked set unchanged; the function
never throws to its caller. -/
def fetchRealMessages (outcome : FetchOutcome) (tracked : List String) :
    List String :=
  match fetchBody outcome tracked with
  | Except.ok t => t
  | Except.error _ => tracked

/-- Whether `fetchRealMessages` writes to the error log on this outcome: the
only logging statement is in the `catch` block (source line 55). -/
def fetchLogged (outcome : FetchOutcome) (tracked : List String) : Bool :=
  match fetchBody outcome tracked with
  | Except.ok _ => false
  | Except.error _ => true

/-- The ids passed to `trackMessage` during one `fetchRealMessages` run. -/
def trackCalls (outcome : FetchOutcome) : List String :=
  match outcome with
  | FetchOutcome.netError => []
  | FetchOutcome.httpResponse ok body =>
    if ok then
      match body with
      | Except.ok data =>
        match data.messages with
        | some msgs => if msgs.length > 0 then msgs.map (fun m => m.id) else []
        | none => []
      | Except.error _ => []
    else []

/-- A failure in the sense of the spec: the fetch rejected, or the response
arrived non-OK. -/
def isPollFailure : FetchOutcome → Bool
  | FetchOutcome.netError => true
  | FetchOutcome.httpResponse ok _ => !ok

/-- A run of consecutive scheduled poll ticks, each seeing the tracked set
left by the previous one. -/
def pollRun (outcomes : List FetchOutcome) (tracked : List String) :
    List String :=
  outcomes.foldl (fun t o => fetchRealMessages o t) tracked

/-! ## Poller scheduling (source lines 59-70)

One activation of the effect is modelled on a millisecond timeline starting
at the activation: standard timer semantics give `setInterval(f, d)` firing
at `d, 2d, 3d, ...` until `clearInterval` runs, and the cleanup returned by
the effect runs `clearInterval` at teardown. -/

/-- The polling period of the source: 15000 milliseconds (source line 67). -/
def pollIntervalMs : Nat := 15000

/-- Whether an interval timer with period `delayMs`, cleared at `clearedAt`,
fires at time `t` (times measured from the `setInterval` call). -/
def setIntervalFires (delayMs clearedAt t : Nat) : Bool :=
  decide (0 < t) && decide (t % delayMs = 0) && decide (t < clearedAt)

/-- Whether the effect activation fires a fetch at time `t`: the immediate
cold-start fetch at `t = 0` exactly when the tracked count is zero (source
lines 60-62), plus the interval ticks until teardown (lines 65-69). -/
def pollerFiresAt (msgCount teardownAt t : Nat) : Bool :=
  (decide (t = 0) && decide (msgCount = 0))
    || setIntervalFires pollIntervalMs teardownAt t

/-! ## Concrete sample inputs for closed evaluations -/

/-- A concrete message-type resolver: tags its argument. -/
def sampleResolver (s : String) : Except Unit String :=
  Except.ok ("Type:" ++ s)

/-- A resolver that always throws. -/
def throwingResolver (_ : String) : Except Unit String :=
  Except.error ()

/-- A concrete store: key `message_m1` holds the string `metaB`, key
`message_m2` holds the string `metaE`, everything else is absent. -/
def sampleCache (k : String) : Option String :=
  if k = "message_m1" then some "metaB"
  else if k = "message_m2" then some "metaE"
  else none

/-- A concrete parse: `metaB` parses to metadata with `messageType` `B`,
`metaE` parses to metadata with the empty `messageType`, everything else
throws. -/
def sampleParse (s : String) : Except Unit Metadata :=
  if s = "metaB" then Except.ok ⟨some "B"⟩
  else if s = "metaE" then Except.ok ⟨some ""⟩
  else Except.error ()

/-- A concrete completed message. -/
def msgA : TrackedMessage :=
  { messageId := "aaaabbbbcccc", status := "COMPLETED"
    data := some ⟨some "7"⟩, timestamp := some 1000 }

/-- A concrete failed message with no payload. -/
def msgB : TrackedMessage :=
  { messageId := "ddddeeeeffff", status := "FAILED"
    data := none, timestamp := none }

/-- A response body with no `messages` field. -/
def noMsgsBody : ApiBody := ⟨none⟩

/-- A response body with an empty `messages` array. -/
def emptyMsgsBody : ApiBody := ⟨some []⟩

/-! ## Helper lemmas -/

/-- The code path of the `localStorage` fallback agrees with the spec-side
step 2, provided the parse of the empty string throws (as `JSON.parse` of an
empty string always does). -/
lemma cacheLabelStep_eq_spec (localGet : String → Option String)
    (parseJSON : String → Except Unit Metadata) (mid : String)
    (hparse : parseJSON "" = Except.error ()) :
    cacheLabelStep true localGet parseJSON mid =
      match specCachedLabel (localGet ("message_" ++ mid)) parseJSON with
      | some s => s
      | none => defaultLabel := by
  unfold cacheLabelStep specCachedLabel
  simp only [if_true]
  cases hg : localGet ("message_" ++ mid) with
  | none => rfl
  | some cs =>
    dsimp only
    by_cases hcs : cs = ""
    · subst hcs
      rw [hparse]
      rfl
    · rw [if_neg hcs]
      cases hp : parseJSON cs with
      | error e => rfl
      | ok md =>
        dsimp only
        cases hmt : md.messageType with
        | none => rfl
        | some s =>
          dsimp only
          by_cases hs : s = ""
          · rw [if_pos hs, if_pos hs]
          · rw [if_neg hs, if_neg hs]

/-- Looking up after a spread-with-computed-key update: the written key reads
back the written value, every other key is unchanged. -/
lemma lookupFlag_setKey (m : ExpandedState) (k : String) (v : Bool)
    (k2 : String) :
    lookupFlag (setKey m k v) k2 = if k = k2 then some v else lookupFlag m k2 := by
  induction m with
  | nil =>
    by_cases h : k = k2
    · simp [setKey, lookupFlag, h]
    · simp [setKey, lookupFlag, h]
  | cons hd tl ih =>
    obtain ⟨k3, v3⟩ := hd
    by_cases h3 : k3 = k
    · subst h3
      by_cases h : k3 = k2
      · simp [setKey, lookupFlag, h]
      · simp [setKey, lookupFlag, h]
    · by_cases h2 : k3 = k2
      · have hk : ¬ k = k2 := fun he => h3 (h2.trans he.symm)
        have hk2 : ¬ k2 = k := fun he => hk he.symm
        simp [setKey, lookupFlag, h3, h2, hk, hk2]
      · simp [setKey, lookupFlag, h3, h2, ih]

/-- Truthy read after an update. -/
lemma jsFlag_setKey (m : ExpandedState) (k : String) (v : Bool) (k2 : String) :
    jsFlag (setKey m k v) k2 = if k = k2 then v else jsFlag m k2 := by
  unfold jsFlag
  rw [lookupFlag_setKey]
  by_cases h : k = k2
  · rw [if_pos h, if_pos h]
  · rw [if_neg h, if_neg h]

/-- The observable effect of `toggleExpanded` on each key: the toggled key is
negated, every other key is unchanged. -/
lemma jsFlag_toggleExpanded (messageId : String) (m : ExpandedState)
    (k : String) :
    jsFlag (toggleExpanded messageId m) k =
      if messageId = k then !(jsFlag m messageId) else jsFlag m k := by
  unfold toggleExpanded
  rw [jsFlag_setKey]

/-- The tracked set produced by one poll run is the left fold of the
registration calls it makes. -/
lemma fetchRealMessages_eq_foldl (outcome : FetchOutcome)
    (tracked : List String) :
    fetchRealMessages outcome tracked =
      (trackCalls outcome).foldl (fun t i => trackMessage i t) tracked := by
  cases outcome with
  | netError => rfl
  | httpResponse ok body =>
    cases ok with
    | false => rfl
    | true =>
      cases body with
      | error e => rfl
      | ok data =>
        cases hm : data.messages with
        | none =>
          simp [fetchRealMessages, fetchBody, trackCalls, applyTracking, hm]
        | some msgs =>
          by_cases hl : msgs.length > 0
          · simp [fetchRealMessages, fetchBody, trackCalls, applyTracking, hm,
              hl, List.foldl_map]
          · simp [fetchRealMessages, fetchBody, trackCalls, applyTracking, hm, hl]

/-! ## Claim theorems -/

/-- Claim C1, counterexample. The claim says the label comes from resolving
`data.messageType` whenever that field is present; but the source tests JS
truthiness, so a present empty string falls through to the cached metadata.
At `data.messageType = some ""` with cache entry resolving to `B`, the label
is `B`, not the resolver output `Type:` for `""`. Likewise a cached metadata
whose `messageType` is the (present) empty string is skipped rather than
used verbatim: at key `m2` the label is the default, not `""`. -/
theorem C1_counterexample :
    (dataMessageType (some ⟨some ""⟩)).isSome = true ∧
    sampleResolver "" = Except.ok "Type:" ∧
    resolveLabel sampleResolver true sampleCache sampleParse "m1"
      (some ⟨some ""⟩) = "B" ∧
    ("B" : String) ≠ "Type:" ∧
    sampleParse "metaE" = Except.ok ⟨some ""⟩ ∧
    resolveLabel sampleResolver true sampleCache sampleParse "m2" none =
      "Cross-Chain Query" ∧
    ("Cross-Chain Query" : String) ≠ "" :=
  ⟨rfl, rfl, rfl, by decide, rfl, rfl, by decide⟩

/-- Claim C1 (amended): the displayed label follows the strict priority order
with first match winning, where step 1 applies when `data.messageType` is
present and truthy (non-empty) and step 2 uses the cached `messageType` only
when it is truthy (non-empty); `specLabel` is that priority list written from
the spec. The hypothesis records that parsing an empty cached string throws,
as `JSON.parse` always does on `""`. -/
theorem C1_label_priority (res : String → Except Unit String)
    (localGet : String → Option String)
    (parseJSON : String → Except Unit Metadata)
    (mid : String) (d : Option MessageData)
    (hparse : parseJSON "" = Except.error ()) :
    resolveLabel res true localGet parseJSON mid d =
      specLabel res (localGet ("message_" ++ mid)) parseJSON
        (dataMessageType d) := by
  unfold resolveLabel resolveLabelBody specLabel
  cases hd : dataMessageType d with
  | none =>
    simp only [jsTruthyStr, Bool.false_eq_true, if_false]
    exact cacheLabelStep_eq_spec localGet parseJSON mid hparse
  | some mt =>
    by_cases hmt : mt = ""
    · subst hmt
      simp only [jsTruthyStr, if_pos rfl, Bool.false_eq_true, if_false]
      exact cacheLabelStep_eq_spec localGet parseJSON mid hparse
    · simp only [jsTruthyStr, if_neg hmt, if_true]

/-- Claim C1, witness: the amended theorem evaluated at a concrete message
whose payload carries message type `7`. -/
theorem C1_label_priority_witness :
    resolveLabel sampleResolver true sampleCache sampleParse "m1"
      (some ⟨some "7"⟩) =
      specLabel sampleResolver (sampleCache "message_m1") sampleParse
        (dataMessageType (some ⟨some "7"⟩)) :=
  C1_label_priority sampleResolver sampleCache sampleParse "m1"
    (some ⟨some "7"⟩) rfl

/-- Claim C4: whenever an exception is raised inside the per-row label
computation — the name lookup throwing, or the cached metadata failing to
parse — the exception is caught and the row label is exactly the default
`Cross-Chain Query`; `resolveLabel` is total, so nothing propagates out of
the row render. -/
theorem C4_exception_defaults (res : String → Except Unit String)
    (hasWindow : Bool) (localGet : String → Option String)
    (parseJSON : String → Except Unit Metadata)
    (mid : String) (d : Option MessageData)
    (h : labelResolutionThrows res hasWindow localGet parseJSON mid d = true) :
    resolveLabel res hasWindow localGet parseJSON mid d = defaultLabel := by
  have hcache : cacheParseThrows hasWindow localGet parseJSON mid = true →
      cacheLabelStep hasWindow localGet parseJSON mid = defaultLabel := by
    intro hc
    unfold cacheParseThrows at hc
    unfold cacheLabelStep
    cases hasWindow with
    | false => rfl
    | true =>
      simp only [if_true] at hc ⊢
      cases hg : localGet ("message_" ++ mid) with
      | none => rfl
      | some s =>
        rw [hg] at hc
        dsimp only at hc ⊢
        by_cases hs : s = ""
        · rw [if_pos hs]
        · rw [if_neg hs] at hc ⊢
          cases hp : parseJSON s with
          | ok md => rw [hp] at hc; exact absurd hc (by simp)
          | error e => rfl
  unfold labelResolutionThrows at h
  unfold resolveLabel resolveLabelBody
  cases hd : dataMessageType d with
  | none =>
    rw [hd] at h
    dsimp only at h ⊢
    rw [hcache h]
    rfl
  | some mt =>
    rw [hd] at h
    dsimp only at h ⊢
    by_cases hmt : mt = ""
    · rw [if_pos hmt] at h ⊢
      rw [hcache h]
      rfl
    · rw [if_neg hmt] at h ⊢
      cases hr : res mt with
      | ok s => rw [hr] at h; exact absurd h (by simp)
      | error e => rfl

/-- Claim C4, witness: with a throwing resolver and a present message type,
the row label degrades to the default. -/
theorem C4_exception_defaults_witness :
    resolveLabel throwingResolver true sampleCache sampleParse "m1"
      (some ⟨some "7"⟩) = defaultLabel :=
  C4_exception_defaults throwingResolver true sampleCache sampleParse "m1"
    (some ⟨some "7"⟩) rfl

/-- Claim C2, counterexample. The claim says every poll failure — network
error or non-OK response — is logged; but the source only logs from the
`catch` block, and a non-OK response takes the `if (response.ok)` else-path
without raising, so nothing is logged for it. -/
theorem C2_counterexample :
    isPollFailure (FetchOutcome.httpResponse false (Except.ok noMsgsBody)) =
      true ∧
    fetchLogged (FetchOutcome.httpResponse false (Except.ok noMsgsBody)) [] =
      false :=
  ⟨rfl, rfl⟩

/-- Claim C2 (amended): every scheduled poll failure is swallowed — the
tracked set is unchanged, nothing is thrown (the run produces a value), and
the next scheduled tick runs from the same state, so one failure never
prevents a later tick from succeeding; a network-error failure is
additionally logged, while a non-OK response is skipped silently without
logging. -/
theorem C2_failure_swallowed (o : FetchOutcome) (tracked : List String)
    (rest : List FetchOutcome) (h : isPollFailure o = true) :
    fetchRealMessages o tracked = tracked ∧
    pollRun (o :: rest) tracked = pollRun rest tracked ∧
    (o = FetchOutcome.netError → fetchLogged o tracked = true) ∧
    (∀ ok body, o = FetchOutcome.httpResponse ok body →
      fetchLogged o tracked = false) := by
  have hun : fetchRealMessages o tracked = tracked := by
    cases o with
    | netError => rfl
    | httpResponse ok body =>
      cases ok with
      | true => exact absurd h (by simp [isPollFailure])
      | false => rfl
  refine ⟨hun, ?_, ?_, ?_⟩
  · show pollRun rest (fetchRealMessages o tracked) = pollRun rest tracked
    rw [hun]
  · intro ho
    subst ho
    rfl
  · intro ok body ho
    subst ho
    cases ok with
    | true => exact absurd h (by simp [isPollFailure])
    | false => rfl

/-- Claim C2, witness: a network error on one tick leaves the tracked set
unchanged, is logged, and the following tick proceeds from the same state. -/
theorem C2_failure_swallowed_witness :
    fetchRealMessages FetchOutcome.netError ["x"] = ["x"] ∧
    pollRun [FetchOutcome.netError] ["x"] = pollRun [] ["x"] ∧
    fetchLogged FetchOutcome.netError ["x"] = true :=
  ⟨(C2_failure_swallowed FetchOutcome.netError ["x"] [] rfl).1,
   (C2_failure_swallowed FetchOutcome.netError ["x"] [] rfl).2.1,
   (C2_failure_swallowed FetchOutcome.netError ["x"] [] rfl).2.2.1 rfl⟩

/-- Claim C3: at activation time 0 the poller fires exactly when the tracked
count is zero; at any later time it fires exactly at multiples of the
15-second period that precede teardown, independently of the tracked count;
and it never fires at or after teardown. -/
theorem C3_poller_schedule (msgCount teardownAt t : Nat) :
    (pollerFiresAt msgCount teardownAt 0 = true ↔ msgCount = 0) ∧
    (0 < t → (pollerFiresAt msgCount teardownAt t = true ↔
      t % pollIntervalMs = 0 ∧ t < teardownAt)) ∧
    (∀ c2, 0 < t →
      pollerFiresAt msgCount teardownAt t = pollerFiresAt c2 teardownAt t) ∧
    (0 < t → teardownAt ≤ t → pollerFiresAt msgCount teardownAt t = false) := by
  have hfire : ∀ c, 0 < t → (pollerFiresAt c teardownAt t = true ↔
      t % pollIntervalMs = 0 ∧ t < teardownAt) := by
    intro c ht
    unfold pollerFiresAt setIntervalFires
    have ht0 : ¬ t = 0 := Nat.pos_iff_ne_zero.mp ht
    simp [ht0, ht]
  refine ⟨?_, hfire msgCount, ?_, ?_⟩
  · unfold pollerFiresAt setIntervalFires
    simp
  · intro c2 ht
    cases hb : pollerFiresAt c2 teardownAt t with
    | true =>
      exact (hfire msgCount ht).mpr ((hfire c2 ht).mp hb)
    | false =>
      cases hb2 : pollerFiresAt msgCount teardownAt t with
      | false => rfl
      | true =>
        have hc2 : pollerFiresAt c2 teardownAt t = true :=
          (hfire c2 ht).mpr ((hfire msgCount ht).mp hb2)
        rw [hc2] at hb
        exact hb
  · intro ht hT
    cases hb : pollerFiresAt msgCount teardownAt t with
    | false => rfl
    | true =>
      have := ((hfire msgCount ht).mp hb).2
      omega

/-- Claim C3, witness: with one tracked message and teardown at 40 seconds,
the tick at 30 seconds fires (independently of the count) and the tick at 45
seconds, past teardown, does not. -/
theorem C3_poller_schedule_witness :
    (pollerFiresAt 1 40000 30000 = true ↔
      30000 % pollIntervalMs = 0 ∧ 30000 < 40000) ∧
    pollerFiresAt 1 40000 30000 = pollerFiresAt 0 40000 30000 ∧
    pollerFiresAt 1 40000 45000 = false :=
  ⟨(C3_poller_schedule 1 40000 30000).2.1 (by decide),
   (C3_poller_schedule 1 40000 30000).2.2.1 0 (by decide),
   (C3_poller_schedule 1 40000 45000).2.2.2 (by decide) (by decide)⟩

/-- Claim C9: on an OK response whose parsed body has no `messages` field, or
an empty `messages` array, the poll registers nothing (`trackMessage` is
called zero times), the tracked set is unchanged, and the run body raises no
error. -/
theorem C9_ok_empty_no_registration (tracked : List String) :
    fetchBody (FetchOutcome.httpResponse true (Except.ok noMsgsBody)) tracked =
      Except.ok tracked ∧
    trackCalls (FetchOutcome.httpResponse true (Except.ok noMsgsBody)) = [] ∧
    fetchRealMessages (FetchOutcome.httpResponse true (Except.ok noMsgsBody))
      tracked = tracked ∧
    fetchBody (FetchOutcome.httpResponse true (Except.ok emptyMsgsBody))
      tracked = Except.ok tracked ∧
    trackCalls (FetchOutcome.httpResponse true (Except.ok emptyMsgsBody)) =
      [] ∧
    fetchRealMessages (FetchOutcome.httpResponse true (Except.ok emptyMsgsBody))
      tracked = tracked :=
  ⟨rfl, rfl, rfl, rfl, rfl, rfl⟩

/-- Claim C5: a zero-length message collection renders exactly the empty
state and no rows; a collection of length N renders exactly N rows with keys
the message ids in order, so distinct ids give no duplicate rows; and the
registration call is idempotent and preserves distinctness of the tracked
ids, so a poller re-registering an already-tracked id creates no duplicate. -/
theorem C5_one_row_per_message (res : String → Except Unit String)
    (hasWindow : Bool) (localGet : String → Option String)
    (parseJSON : String → Except Unit Metadata) (cs : ConnectionState)
    (exp : ExpandedState) (msgs : List TrackedMessage) :
    (msgs.length = 0 →
      TrackedMessages res hasWindow localGet parseJSON cs exp msgs =
        View.emptyState) ∧
    (0 < msgs.length →
      TrackedMessages res hasWindow localGet parseJSON cs exp msgs =
        View.messageList (connectionBadge cs) msgs.length
          (msgs.map (renderRow res hasWindow localGet parseJSON exp)) ∧
      (msgs.map (renderRow res hasWindow localGet parseJSON exp)).length =
        msgs.length ∧
      (msgs.map (renderRow res hasWindow localGet parseJSON exp)).map Row.key =
        msgs.map TrackedMessage.messageId ∧
      ((msgs.map TrackedMessage.messageId).Nodup →
        ((msgs.map (renderRow res hasWindow localGet parseJSON exp)).map
          Row.key).Nodup)) ∧
    (∀ id tracked,
      trackMessage id (trackMessage id tracked) = trackMessage id tracked) ∧
    (∀ id tracked, List.Nodup tracked → List.Nodup (trackMessage id tracked)) := by
  have hkeys : (msgs.map (renderRow res hasWindow localGet parseJSON exp)).map
      Row.key = msgs.map TrackedMessage.messageId := by
    rw [List.map_map]
    rfl
  refine ⟨?_, ?_, ?_, ?_⟩
  · intro h
    unfold TrackedMessages
    simp only [List.length_map]
    rw [if_pos h]
  · intro h
    refine ⟨?_, List.length_map _ _, hkeys, ?_⟩
    · unfold TrackedMessages
      simp only [List.length_map]
      rw [if_neg (Nat.pos_iff_ne_zero.mp h)]
    · intro hnd
      rw [hkeys]
      exact hnd
  · intro id tracked
    by_cases hm : id ∈ tracked
    · simp [trackMessage, hm]
    · simp [trackMessage, hm]
  · intro id tracked hnd
    unfold trackMessage
    by_cases hm : id ∈ tracked
    · rw [if_pos hm]
      exact hnd
    · rw [if_neg hm]
      simp [List.nodup_append, hnd, hm]

/-- Claim C5, witness: two distinct messages render as two rows with distinct
keys, and re-registering a tracked id is a no-op. -/
theorem C5_one_row_per_message_witness :
    TrackedMessages sampleResolver true sampleCache sampleParse
      ConnectionState.OPEN initialExpanded [msgA, msgB] =
      View.messageList (connectionBadge ConnectionState.OPEN) 2
        ([msgA, msgB].map
          (renderRow sampleResolver true sampleCache sampleParse
            initialExpanded)) ∧
    (([msgA, msgB].map
        (renderRow sampleResolver true sampleCache sampleParse
          initialExpanded)).map Row.key).Nodup ∧
    trackMessage "x" (trackMessage "x" []) = trackMessage "x" [] :=
  ⟨((C5_one_row_per_message sampleResolver true sampleCache sampleParse
      ConnectionState.OPEN initialExpanded [msgA, msgB]).2.1 (by decide)).1,
   ((C5_one_row_per_message sampleResolver true sampleCache sampleParse
      ConnectionState.OPEN initialExpanded [msgA, msgB]).2.1
        (by decide)).2.2.2 (by decide),
   (C5_one_row_per_message sampleResolver true sampleCache sampleParse
      ConnectionState.OPEN initialExpanded [msgA, msgB]).2.2.1 "x" []⟩

/-- Claim C6: the status icon mapping sends COMPLETED, FAILED, INFLIGHT and
DELIVERED to their four glyphs, and every other status string — CREATED
included — to the yellow clock glyph, identical to the CREATED treatment. -/
theorem C6_status_icon_mapping (s : String) :
    getStatusIcon "COMPLETED" = Icon.checkCircleGreen ∧
    getStatusIcon "FAILED" = Icon.xCircleRed ∧
    getStatusIcon "INFLIGHT" = Icon.arrowRightLeftBlue ∧
    getStatusIcon "DELIVERED" = Icon.checkCirclePurple ∧
    getStatusIcon "CREATED" = Icon.clockYellow ∧
    (s ≠ "COMPLETED" → s ≠ "FAILED" → s ≠ "INFLIGHT" → s ≠ "DELIVERED" →
      getStatusIcon s = Icon.clockYellow ∧
      getStatusIcon s = getStatusIcon "CREATED") := by
  refine ⟨rfl, rfl, rfl, rfl, rfl, ?_⟩
  intro h1 h2 h3 h4
  unfold getStatusIcon
  rw [if_neg h1, if_neg h2, if_neg h3, if_neg h4]
  exact ⟨rfl, by decide⟩

/-- Claim C6, witness: an unrecognized status string takes the CREATED
treatment. -/
theorem C6_status_icon_mapping_witness :
    getStatusIcon "UNRECOGNIZED" = Icon.clockYellow ∧
    getStatusIcon "UNRECOGNIZED" = getStatusIcon "CREATED" :=
  (C6_status_icon_mapping "UNRECOGNIZED").2.2.2.2.2
    (by decide) (by decide) (by decide) (by decide)

/-- Claim C7: the badge is a pure function of the connection state — live
exactly when the state is OPEN, polling for every other value — and the
rendered view carries exactly that badge whenever rows are shown. -/
theorem C7_connection_indicator (cs : ConnectionState)
    (res : String → Except Unit String) (hasWindow : Bool)
    (localGet : String → Option String)
    (parseJSON : String → Except Unit Metadata)
    (exp : ExpandedState) (msgs : List TrackedMessage)
    (h : 0 < msgs.length) :
    (connectionBadge cs = Indicator.live ↔ cs = ConnectionState.OPEN) ∧
    (connectionBadge cs = Indicator.polling ↔ cs ≠ ConnectionState.OPEN) ∧
    TrackedMessages res hasWindow localGet parseJSON cs exp msgs =
      View.messageList (connectionBadge cs) msgs.length
        (msgs.map (renderRow res hasWindow localGet parseJSON exp)) := by
  refine ⟨?_, ?_, ?_⟩
  · cases cs <;> simp [connectionBadge]
  · cases cs <;> simp [connectionBadge]
  · unfold TrackedMessages
    simp only [List.length_map]
    rw [if_neg (Nat.pos_iff_ne_zero.mp h)]

/-- Claim C7, witness: in the CONNECTING state the polling badge is shown on
a one-row view. -/
theorem C7_connection_indicator_witness :
    (connectionBadge ConnectionState.CONNECTING = Indicator.live ↔
      ConnectionState.CONNECTING = ConnectionState.OPEN) ∧
    (connectionBadge ConnectionState.CONNECTING = Indicator.polling ↔
      ConnectionState.CONNECTING ≠ ConnectionState.OPEN) ∧
    TrackedMessages sampleResolver true sampleCache sampleParse
      ConnectionState.CONNECTING initialExpanded [msgA] =
      View.messageList (connectionBadge ConnectionState.CONNECTING) 1
        ([msgA].map (renderRow sampleResolver true sampleCache sampleParse
          initialExpanded)) :=
  C7_connection_indicator ConnectionState.CONNECTING sampleResolver true
    sampleCache sampleParse initialExpanded [msgA] (by decide)

/-- Claim C8: toggling a row twice restores every expansion flag; toggling
one row leaves every other row's flag unchanged; and because the dedicated
control stops propagation, a click on it toggles the row exactly once, so it
too leaves every other row unchanged. -/
theorem C8_toggle_involution (m : ExpandedState) (mid k : String) :
    jsFlag (toggleExpanded mid (toggleExpanded mid m)) k = jsFlag m k ∧
    (k ≠ mid → jsFlag (toggleExpanded mid m) k = jsFlag m k) ∧
    controlClick mid m = toggleExpanded mid m ∧
    (k ≠ mid → jsFlag (controlClick mid m) k = jsFlag m k) := by
  have hloc : k ≠ mid → jsFlag (toggleExpanded mid m) k = jsFlag m k := by
    intro hk
    rw [jsFlag_toggleExpanded]
    rw [if_neg (fun he => hk he.symm)]
  refine ⟨?_, hloc, rfl, fun hk => hloc hk⟩
  by_cases hk : mid = k
  · subst hk
    simp [jsFlag_toggleExpanded]
  · simp [jsFlag_toggleExpanded, hk]

/-- Claim C8, witness: with row `a` expanded, double-toggling `a` restores
the mapping and a single toggle of `a` leaves row `b` unchanged. -/
theorem C8_toggle_involution_witness :
    jsFlag (toggleExpanded "a" (toggleExpanded "a" [("a", true)])) "b" =
      jsFlag [("a", true)] "b" ∧
    jsFlag (toggleExpanded "a" [("a", true)]) "b" = jsFlag [("a", true)] "b" ∧
    controlClick "a" [("a", true)] = toggleExpanded "a" [("a", true)] :=
  ⟨(C8_toggle_involution [("a", true)] "a" "b").1,
   (C8_toggle_involution [("a", true)] "a" "b").2.1 (by decide),
   (C8_toggle_involution [("a", true)] "a" "b").2.2.1⟩

/-- Claim C10: a messageId absent from the expansion mapping — as every id is
at mount, since the mapping starts empty — reads as a falsy flag, so the row
renders collapsed with no detail sub-view mounted; toggling that row mounts
the detail sub-view for exactly that id. -/
theorem C10_collapsed_until_toggled (res : String → Except Unit String)
    (hasWindow : Bool) (localGet : String → Option String)
    (parseJSON : String → Except Unit Metadata)
    (exp : ExpandedState) (msg : TrackedMessage)
    (h : lookupFlag exp msg.messageId = none) :
    jsFlag exp msg.messageId = false ∧
    (renderRow res hasWindow localGet parseJSON exp msg).chevronUp = false ∧
    (renderRow res hasWindow localGet parseJSON exp msg).detail = none ∧
    (∀ mid, lookupFlag initialExpanded mid = none) ∧
    (renderRow res hasWindow localGet parseJSON
      (toggleExpanded msg.messageId exp) msg).detail = some msg.messageId := by
  have hflag : jsFlag exp msg.messageId = false := by
    unfold jsFlag
    rw [h]
  refine ⟨hflag, ?_, ?_, fun _ => rfl, ?_⟩
  · unfold renderRow
    dsimp only
    rw [hflag]
  · unfold renderRow
    dsimp only
    rw [hflag]
    rfl
  · unfold renderRow
    dsimp only
    rw [jsFlag_toggleExpanded, if_pos rfl, hflag]
    rfl

/-- Claim C10, witness: at the initial (empty) mapping a concrete row is
collapsed with its detail unmounted, and toggling it mounts the detail. -/
theorem C10_collapsed_until_toggled_witness :
    jsFlag initialExpanded msgA.messageId = false ∧
    (renderRow sampleResolver true sampleCache sampleParse initialExpanded
      msgA).detail = none ∧
    (renderRow sampleResolver true sampleCache sampleParse
      (toggleExpanded msgA.messageId initialExpanded) msgA).detail =
      some msgA.messageId :=
  ⟨(C10_collapsed_until_toggled sampleResolver true sampleCache sampleParse
      initialExpanded msgA rfl).1,
   (C10_collapsed_until_toggled sampleResolver true sampleCache sampleParse
      initialExpanded msgA rfl).2.2.1,
   (C10_collapsed_until_toggled sampleResolver true sampleCache sampleParse
      initialExpanded msgA rfl).2.2.2.2⟩
